import Mathlib

/-!
Shallow embedding of the stock-dashboard data-resolution and quant-scoring
pipeline (src/app.py), with theorems settling the frozen claims about it.

The embedded parts are:
* the hybrid resolver `fetch_data` (src/app.py lines 120-161),
* the `st.cache_data(ttl=1800)` memoization around it (line 120),
* the main-workflow indicator calculations (lines 193-218),
* the scoring rule of the specification (spec section 4.5), which has no
  implementation under src/ and is therefore modelled from the spec.

Floating-point values are embedded as exact rationals; the two places where
the source can produce a non-number (a pandas standard deviation of fewer
than two samples) are modelled with `Option`, and the source's explicit
NaN-to-0 coercions (lines 213-215) become the `Option.getD 0` step.
`sqrt` forces the exposed volatility and Sharpe values into `ℝ`.
-/

namespace StockDashboard

/-- One normalized daily bar. The pipeline consumes only the date index and
the Close column (src/app.py line 193 onward drops rows without Close and
uses no other column), so the embedding keeps exactly those two fields. -/
structure Bar where
  date : Nat
  close : ℚ
  deriving DecidableEq

/-- Outcome of one provider call, as seen by `fetch_data`:
`ok bars` is a dataframe holding `bars` rows (possibly zero),
`noDf` is the TwelveData client returning `None`,
`exn` is any exception raised by the provider call (caught by the
bare `except: pass` at src/app.py lines 143-144 and 158-159). -/
inductive FetchOutcome where
  | ok (bars : List Bar)
  | noDf
  | exn
  deriving DecidableEq

/-- The TwelveData branch's `df.sort_index()` (src/app.py line 135): sort
the bars by date. -/
def sortBars (bars : List Bar) : List Bar :=
  List.insertionSort (fun a b => a.date ≤ b.date) bars

/-- Embedding of `fetch_data` (src/app.py lines 120-161), the resolver body.
`tdAvailable` is `td` being non-`None` (an API key was configured, line 47).
`startD`/`endD` are the `start_date`/`end_date` sidebar values read from the
enclosing scope; the TwelveData branch never uses them (it requests a fixed
`outputsize=500`, lines 126-131) and the yfinance branch passes them to
`yf.download`, whose response is abstracted as `yfOutcome`.
The TwelveData branch returns its (sorted, renamed) dataframe when it is
non-`None` and non-empty (line 134); otherwise control falls through to the
yfinance branch, which returns its dataframe when non-empty (line 156);
otherwise the function returns `(None, None)` (line 161), embedded as
`Option.none`. -/
def fetch_data (startD endD : Nat) (tdAvailable : Bool)
    (tdOutcome yfOutcome : FetchOutcome) : Option (List Bar × String) :=
  let tdResult : Option (List Bar × String) :=
    if tdAvailable then
      match tdOutcome with
      | FetchOutcome.ok bars =>
          if bars.isEmpty then Option.none
          else some (sortBars bars, "TwelveData")
      | _ => Option.none
    else Option.none
  match tdResult with
  | some r => some r
  | Option.none =>
      match yfOutcome with
      | FetchOutcome.ok bars =>
          if bars.isEmpty then Option.none else some (bars, "yfinance")
      | _ => Option.none

/-- The arguments of the memoized function: `st.cache_data` keys on the
decorated function's parameters, and `fetch_data` is declared as
`fetch_data(symbol, exchange)` (src/app.py line 121). -/
abbrev CacheKey := String × String

/-- The memoized value: the full return of `fetch_data`, including the
`(None, None)` failure return (src/app.py line 161). -/
abbrev FetchResult := Option (List Bar × String)

/-- The cache mapping: key, stored result, and the time it was stored. -/
abbrev CacheState := List (CacheKey × FetchResult × Nat)

/-- The `ttl=1800` argument of the cache decorator (src/app.py line 120). -/
def ttlSeconds : Nat := 1800

/-- The cache key produced for a request: only `(symbol, exchange)`, the
parameters of the decorated function. The requested window
(`startD`, `endD`) is read from the enclosing scope inside the body
(src/app.py lines 152-153) and is not part of the key. -/
def cacheKeyOf (symbol exchange : String) (startD endD : Nat) : CacheKey :=
  (symbol, exchange)

/-- Look up a stored, still-fresh entry for `key` at time `now`. -/
def lookupFresh (st : CacheState) (key : CacheKey) (now : Nat) :
    Option FetchResult :=
  match st.find? (fun e => e.1 == key && now < e.2.2 + ttlSeconds) with
  | some e => some e.2.1
  | Option.none => Option.none

/-- One call through the `st.cache_data` wrapper around `fetch_data`
(src/app.py line 120): on a fresh hit, return the stored result without
running the body; otherwise run the body, store whatever it returned
(`st.cache_data` stores the return value unconditionally, the `(None, None)`
failure included), and return it. The final `Bool` records whether the body
(the resolver) actually ran. -/
def cachedFetch (st : CacheState) (now : Nat) (symbol exchange : String)
    (startD endD : Nat) (tdAvailable : Bool)
    (tdOutcome yfOutcome : FetchOutcome) : FetchResult × CacheState × Bool :=
  let key := cacheKeyOf symbol exchange startD endD
  match lookupFresh st key now with
  | some v => (v, st, false)
  | Option.none =>
      let v := fetch_data startD endD tdAvailable tdOutcome yfOutcome
      (v, (key, v, now) :: st, true)

/-- Embedding of `data["Close"].pct_change()` (src/app.py line 200): the
Return column has one entry per bar, the first is NaN (`Option.none`), and
entry `i ≥ 1` is `close[i]/close[i-1] - 1`. -/
def pctChange (closes : List ℚ) : List (Option ℚ) :=
  match closes with
  | [] => []
  | _ :: tail =>
      Option.none :: List.zipWith (fun prev cur => some (cur / prev - 1)) closes tail

/-- The defined (non-NaN) entries of the Return column, in order: the sample
that `data["Return"].std()` actually uses (pandas skips NaN). -/
def returnsOf (closes : List ℚ) : List ℚ :=
  (pctChange closes).reduceOption

/-- Arithmetic mean of a list of rationals. -/
def listMean (xs : List ℚ) : ℚ :=
  xs.sum / (xs.length : ℚ)

/-- Sample variance with the N-1 denominator, pandas' default `ddof=1`. -/
def sampleVar (xs : List ℚ) : ℚ :=
  ((xs.map fun x => (x - listMean xs) ^ 2).sum) / ((xs.length : ℚ) - 1)

/-- Pandas `Series.std()` over the non-NaN sample `xs`: NaN (`Option.none`)
when fewer than two samples are present, else the sample standard
deviation. -/
noncomputable def sampleStd (xs : List ℚ) : Option ℝ :=
  if xs.length < 2 then Option.none else some (Real.sqrt (sampleVar xs))

/-- Embedding of `data["Close"].rolling(k).mean()` (src/app.py lines
201-202): entry `i` is NaN (`Option.none`) for `i < k-1` and the mean of the
trailing `k` closes inclusive of `i` otherwise. -/
def rollingMean (k : Nat) (xs : List ℚ) : List (Option ℚ) :=
  (List.range xs.length).map fun i =>
    if k ≤ i + 1 then some (((xs.take (i + 1)).drop (i + 1 - k)).sum / (k : ℚ))
    else Option.none

/-- `.iloc[-1]` on a column that may hold NaN entries: the last entry, with
NaN (`Option.none`) also standing for the (guarded-away) empty column. -/
def ilocLast (col : List (Option ℚ)) : Option ℚ :=
  match col.getLast? with
  | some v => v
  | Option.none => Option.none

/-- The mean of the last `k` entries of `xs`; the value of
`rolling(k).mean().iloc[-1]` once `k ≤ xs.length`. -/
def trailingMean (k : Nat) (xs : List ℚ) : ℚ :=
  ((xs.drop (xs.length - k)).sum) / (k : ℚ)

/-- Embedding of `annual_return` (src/app.py line 204):
`Close.iloc[-1] / Close.iloc[0] - 1`. The later NaN-to-0 coercion
(line 213) is the identity here, since the closes are rationals and the
Return guard has already dropped NaN closes (line 193). -/
def annual_return (closes : List ℚ) : ℚ :=
  closes.getLastD 0 / closes.headD 0 - 1

/-- Embedding of `volatility = data["Return"].std() * np.sqrt(252)`
(src/app.py line 205), before the NaN-to-0 coercion: NaN (`Option.none`)
exactly when the standard deviation is NaN. -/
noncomputable def volatilityRaw (closes : List ℚ) : Option ℝ :=
  (sampleStd (returnsOf closes)).map fun s => s * Real.sqrt 252

/-- The exposed volatility after the NaN-to-0 coercion
`volatility = 0 if pd.isna(volatility) else volatility`
(src/app.py line 214). -/
noncomputable def volatility (closes : List ℚ) : ℝ :=
  (volatilityRaw closes).getD 0

/-- Embedding of the Sharpe computation (src/app.py lines 207-210):
0 when the volatility is NaN or zero, else `annual_return / volatility`.
The raw volatility `some v` is zero exactly when the sample variance is
zero, which keeps the test decidable. The later NaN-to-0 coercion
(line 215) is the identity: `annual_return / v` with `v ≠ 0` is a real
number. -/
noncomputable def sharpe (closes : List ℚ) : ℝ :=
  match volatilityRaw closes with
  | Option.none => 0
  | some v => if v = 0 then 0 else (annual_return closes : ℝ) / v

/-- Embedding of `signal` (src/app.py lines 217-218):
`"BUY" if data["MA20"].iloc[-1] > data["MA50"].iloc[-1] else "SELL"`.
A comparison against NaN is false in Python, so any undefined moving
average yields `"SELL"`. -/
def signalOf (closes : List ℚ) : String :=
  match ilocLast (rollingMean 20 closes), ilocLast (rollingMean 50 closes) with
  | some ma20, some ma50 => if ma20 > ma50 then "BUY" else "SELL"
  | _, _ => "SELL"

/-- The Indicator Engine's failure, `InsufficientDataError{have, need}`.
The source exits with `st.error("Not enough data for analysis."); st.stop()`
(src/app.py lines 195-197); the typed payload is the spec's rendering of
that exit (spec sections 4.4 and 7). -/
structure InsufficientDataError where
  «have» : Nat
  need : Nat
  deriving DecidableEq

/-- The indicator outputs of one accepted run of the main workflow
(src/app.py lines 200-218). -/
structure IndicatorSet where
  returnSeries : List (Option ℚ)
  movingAverageShort : List (Option ℚ)
  movingAverageLong : List (Option ℚ)
  annualReturn : ℚ
  annualizedVolatility : ℝ
  sharpeValue : ℝ
  signal : String

/-- The Indicator Engine's `compute`: the guard
`if len(data) < 50: st.error(...); st.stop()` (src/app.py lines 195-197)
followed by the calculations block (lines 200-218). -/
noncomputable def compute (closes : List ℚ) :
    Except InsufficientDataError IndicatorSet :=
  if closes.length < 50 then
    Except.error ⟨closes.length, 50⟩
  else
    Except.ok
      { returnSeries := pctChange closes
        movingAverageShort := rollingMean 20 closes
        movingAverageLong := rollingMean 50 closes
        annualReturn := annual_return closes
        annualizedVolatility := volatility closes
        sharpeValue := sharpe closes
        signal := signalOf closes }

/-- Modelled from the spec: the Buy/Sell trend enum of the Scoring Engine's
input (spec section 3, `signal: enum{Buy, Sell}`). The Scoring Engine
(spec section 4.5) has no implementation under src/. -/
inductive Signal where
  | buy
  | sell
  deriving DecidableEq

/-- Modelled from the spec: the rating categories (spec section 3,
`category: enum{StrongBuy, Watchlist, Avoid}`). -/
inductive Category where
  | strongBuy
  | watchlist
  | avoid
  deriving DecidableEq

/-- Modelled from the spec: the IndicatorSet fields the Scoring Engine reads
(spec sections 3 and 4.5). The numeric fields are taken as exact rationals
so that the fixed threshold rule is decidable. -/
structure IndicatorSummary where
  annualReturn : ℚ
  annualizedVolatility : ℚ
  sharpeValue : ℚ
  signal : Signal
  deriving DecidableEq

/-- Modelled from the spec: the Iverson bracket of the scoring rule, 1 if
the condition holds else 0 (spec section 4.5). -/
def bracket (p : Prop) [Decidable p] : Nat :=
  if p then 1 else 0

/-- Modelled from the spec: the Scoring Engine's score,
`[annualReturn > 0] + [annualizedVolatility < 0.40] + [sharpeRatio > 1] +
[signal == Buy]` (spec section 4.5). -/
def score (ind : IndicatorSummary) : Nat :=
  bracket (0 < ind.annualReturn) + bracket (ind.annualizedVolatility < 2 / 5) +
    bracket (1 < ind.sharpeValue) + bracket (ind.signal = Signal.buy)

/-- Modelled from the spec: the category thresholds, `score ≥ 3 → StrongBuy;
score == 2 → Watchlist; score ≤ 1 → Avoid` (spec section 4.5). -/
def categoryOf (s : Nat) : Category :=
  if 3 ≤ s then Category.strongBuy
  else if s = 2 then Category.watchlist
  else Category.avoid

/-- Modelled from the spec: a rating record, score in `[0,4]` plus category
(spec section 3). -/
structure Rating where
  score : Nat
  category : Category
  deriving DecidableEq

/-- Modelled from the spec: the Scoring Engine's `score(ind) -> Rating`
operation (spec section 4.5). -/
def rate (ind : IndicatorSummary) : Rating :=
  ⟨score ind, categoryOf (score ind)⟩

lemma zipWith_some_reduceOption {α β γ : Type} (g : α → β → γ) :
    ∀ (l₁ : List α) (l₂ : List β),
      (List.zipWith (fun a b => some (g a b)) l₁ l₂).reduceOption =
        List.zipWith g l₁ l₂ := by
  intro l₁
  induction l₁ with
  | nil => intro l₂; simp [List.reduceOption]
  | cons a t ih =>
      intro l₂
      cases l₂ with
      | nil => simp [List.reduceOption]
      | cons b t₂ => simp [List.reduceOption_cons_of_some, ih]

lemma returnsOf_eq (closes : List ℚ) :
    returnsOf closes =
      List.zipWith (fun prev cur => cur / prev - 1) closes closes.tail := by
  cases closes with
  | nil => simp [returnsOf, pctChange]
  | cons c tail =>
      simp only [returnsOf, pctChange, List.tail_cons,
        List.reduceOption_cons_of_none]
      exact zipWith_some_reduceOption _ _ _

lemma returnsOf_length (closes : List ℚ) :
    (returnsOf closes).length = closes.length - 1 := by
  rw [returnsOf_eq]
  cases closes with
  | nil => simp
  | cons c tail => simp [List.length_zipWith]

lemma pctChange_length (closes : List ℚ) :
    (pctChange closes).length = closes.length := by
  cases closes with
  | nil => simp [pctChange]
  | cons c tail => simp [pctChange, List.length_zipWith]

lemma zipWith_getD {α β γ : Type} (f : α → β → γ) (d₁ : α) (d₂ : β) (d : γ) :
    ∀ (l₁ : List α) (l₂ : List β) (i : Nat), i < l₁.length → i < l₂.length →
      (List.zipWith f l₁ l₂).getD i d = f (l₁.getD i d₁) (l₂.getD i d₂) := by
  intro l₁
  induction l₁ with
  | nil => intro l₂ i h₁ h₂; simp at h₁
  | cons a t ih =>
      intro l₂ i h₁ h₂
      cases l₂ with
      | nil => simp at h₂
      | cons b t₂ =>
          cases i with
          | zero => simp [List.getD]
          | succ j =>
              simp only [List.zipWith_cons_cons, List.getD_cons_succ]
              exact ih t₂ j (by simpa using h₁) (by simpa using h₂)

lemma headD_eq_getD (xs : List ℚ) (d : ℚ) : xs.headD d = xs.getD 0 d := by
  cases xs <;> simp [List.getD]

lemma getLastD_eq_getD (xs : List ℚ) (d : ℚ) :
    xs.getLastD d = xs.getD (xs.length - 1) d := by
  rw [List.getLastD_eq_getLast?, List.getLast?_eq_getElem?]
  simp [List.getD]

lemma ilocLast_rollingMean (k : Nat) (xs : List ℚ) (hk : 1 ≤ k)
    (hlen : k ≤ xs.length) :
    ilocLast (rollingMean k xs) = some (trailingMean k xs) := by
  obtain ⟨m, hm⟩ : ∃ m, xs.length = m + 1 := by
    rcases Nat.exists_eq_add_of_le (Nat.le_trans hk hlen) with ⟨m, h⟩
    exact ⟨m, by omega⟩
  have hkm : k ≤ m + 1 := hm ▸ hlen
  simp only [ilocLast, rollingMean, hm, List.range_succ, List.map_append,
    List.map_cons, List.map_nil, List.getLast?_concat]
  have hif : k ≤ m + 1 := hkm
  rw [if_pos hif]
  have htake : xs.take (m + 1) = xs := by
    rw [← hm]; exact List.take_length xs
  rw [htake]
  simp [trailingMean, hm]

/-- C1: for every bar series with fewer than longWindow (50) bars, the
Indicator Engine's compute operation fails with
`InsufficientDataError{have := len, need := 50}` and computes no
indicators (the guard at src/app.py lines 195-197 stops before the
calculations block). -/
theorem claim_C1_insufficient_data (closes : List ℚ)
    (h : closes.length < 50) :
    compute closes = Except.error ⟨closes.length, 50⟩ ∧
      ∀ ind : IndicatorSet, compute closes ≠ Except.ok ind := by
  constructor
  · simp [compute, h]
  · intro ind hcontra
    simp [compute, h] at hcontra

/-- Witness for C1: a series of exactly 49 bars fails with
`InsufficientDataError{have := 49, need := 50}`. -/
theorem claim_C1_witness :
    (List.replicate 49 (1 : ℚ)).length < 50 ∧
      compute (List.replicate 49 (1 : ℚ)) = Except.error ⟨49, 50⟩ := by
  refine ⟨by decide, ?_⟩
  have h := claim_C1_insufficient_data (List.replicate 49 (1 : ℚ)) (by decide)
  simpa using h.1

/-- C6: for every accepted bar series, `annual_return` equals
`close[last] / close[first] - 1`, the whole-period simple return
(src/app.py line 204). -/
theorem claim_C6_annual_return (closes : List ℚ) (h : 50 ≤ closes.length) :
    annual_return closes =
      closes.getD (closes.length - 1) 0 / closes.getD 0 0 - 1 := by
  rw [annual_return, getLastD_eq_getD, headD_eq_getD]

/-- Witness for C6 at a concrete accepted series. -/
theorem claim_C6_witness :
    50 ≤ (List.replicate 50 (1 : ℚ)).length ∧
      annual_return (List.replicate 50 (1 : ℚ)) =
        (List.replicate 50 (1 : ℚ)).getD ((List.replicate 50 (1 : ℚ)).length - 1) 0 /
            (List.replicate 50 (1 : ℚ)).getD 0 0 - 1 :=
  ⟨by decide, claim_C6_annual_return (List.replicate 50 (1 : ℚ)) (by decide)⟩

/-- C7: for every accepted bar series the exposed volatility is the sample
(N-1 denominator) standard deviation of the return series times sqrt 252
(src/app.py line 205); when the return series has fewer than two entries the
standard deviation is NaN and the exposed volatility is the coerced 0
(src/app.py line 214), so NaN is never propagated. -/
theorem claim_C7_volatility :
    (∀ closes : List ℚ, 50 ≤ closes.length →
        volatility closes =
          Real.sqrt (sampleVar (returnsOf closes)) * Real.sqrt 252) ∧
      ∀ closes : List ℚ, (returnsOf closes).length < 2 →
        volatility closes = 0 := by
  constructor
  · intro closes h
    have hlen : (returnsOf closes).length = closes.length - 1 :=
      returnsOf_length closes
    have h2 : ¬ (returnsOf closes).length < 2 := by omega
    simp [volatility, volatilityRaw, sampleStd, h2]
  · intro closes h
    simp [volatility, volatilityRaw, sampleStd, h]

/-- Witness for C7: a concrete accepted series, and a concrete short series
whose return sample has fewer than two entries. -/
theorem claim_C7_witness :
    (50 ≤ (List.replicate 50 (1 : ℚ)).length ∧
        volatility (List.replicate 50 (1 : ℚ)) =
          Real.sqrt (sampleVar (returnsOf (List.replicate 50 (1 : ℚ)))) *
            Real.sqrt 252) ∧
      (returnsOf [(1 : ℚ)]).length < 2 ∧ volatility [(1 : ℚ)] = 0 :=
  ⟨⟨by decide, claim_C7_volatility.1 (List.replicate 50 (1 : ℚ)) (by decide)⟩,
    by decide, claim_C7_volatility.2 [(1 : ℚ)] (by decide)⟩

/-- C9: for every accepted series of N bars the Return column has N entries,
its first entry is NaN (no return for the first bar), entry `i ≥ 1` is
`close[i]/close[i-1] - 1`, and exactly N-1 entries are defined
(src/app.py line 200). -/
theorem claim_C9_return_series (closes : List ℚ) (h : 50 ≤ closes.length) :
    (pctChange closes).length = closes.length ∧
      (returnsOf closes).length = closes.length - 1 ∧
      (pctChange closes).getD 0 (some 0) = Option.none ∧
      ∀ i : Nat, 1 ≤ i → i < closes.length →
        (pctChange closes).getD i Option.none =
          some (closes.getD i 0 / closes.getD (i - 1) 0 - 1) := by
  obtain ⟨c, tail, rfl⟩ : ∃ c tail, closes = c :: tail := by
    cases closes with
    | nil => simp at h
    | cons c t => exact ⟨c, t, rfl⟩
  refine ⟨pctChange_length _, returnsOf_length _, by simp [pctChange], ?_⟩
  intro i h1 hi
  obtain ⟨j, rfl⟩ : ∃ j, i = j + 1 := ⟨i - 1, by omega⟩
  simp only [pctChange, List.getD_cons_succ]
  have hj₁ : j < (c :: tail).length := by
    simp only [List.length_cons] at hi ⊢; omega
  have hj₂ : j < tail.length := by
    simp only [List.length_cons] at hi; omega
  rw [zipWith_getD (fun prev cur => some (cur / prev - 1)) 0 0 Option.none
    (c :: tail) tail j hj₁ hj₂]
  simp [List.getD_cons_succ]

/-- Witness for C9 at a concrete accepted series and index. -/
theorem claim_C9_witness :
    50 ≤ (List.replicate 50 (1 : ℚ)).length ∧
      (1 ≤ 1 ∧ 1 < (List.replicate 50 (1 : ℚ)).length) ∧
      (pctChange (List.replicate 50 (1 : ℚ))).getD 1 Option.none =
        some ((List.replicate 50 (1 : ℚ)).getD 1 0 /
            (List.replicate 50 (1 : ℚ)).getD 0 0 - 1) :=
  ⟨by decide, ⟨by decide, by decide⟩,
    (claim_C9_return_series (List.replicate 50 (1 : ℚ)) (by decide)).2.2.2 1
      (by decide) (by decide)⟩

/-- C8: for every accepted bar series the signal is `"BUY"` if and only if
the last short-window (20) moving average strictly exceeds the last
long-window (50) moving average, and `"SELL"` otherwise; equality yields
`"SELL"` and there is no neutral state (src/app.py lines 201-202 and
217-218). -/
theorem claim_C8_signal (closes : List ℚ) (h : 50 ≤ closes.length) :
    (signalOf closes = "BUY" ↔
        trailingMean 50 closes < trailingMean 20 closes) ∧
      (trailingMean 20 closes = trailingMean 50 closes →
        signalOf closes = "SELL") ∧
      (signalOf closes = "BUY" ∨ signalOf closes = "SELL") := by
  have h20 : ilocLast (rollingMean 20 closes) = some (trailingMean 20 closes) :=
    ilocLast_rollingMean 20 closes (by omega) (by omega)
  have h50 : ilocLast (rollingMean 50 closes) = some (trailingMean 50 closes) :=
    ilocLast_rollingMean 50 closes (by omega) (by omega)
  have hs : signalOf closes =
      if trailingMean 50 closes < trailingMean 20 closes then "BUY"
      else "SELL" := by
    simp only [signalOf, h20, h50, gt_iff_lt]
  refine ⟨?_, ?_, ?_⟩
  · rw [hs]
    by_cases hc : trailingMean 50 closes < trailingMean 20 closes
    · simp [hc]
    · simp [hc]
  · intro heq
    rw [hs, if_neg]
    rw [heq]
    exact lt_irrefl _
  · rw [hs]
    by_cases hc : trailingMean 50 closes < trailingMean 20 closes
    · exact Or.inl (by rw [if_pos hc])
    · exact Or.inr (by rw [if_neg hc])

/-- Witness for C8: a flat 50-bar series has equal moving averages and is
classified `"SELL"`. -/
theorem claim_C8_witness :
    50 ≤ (List.replicate 50 (1 : ℚ)).length ∧
      trailingMean 20 (List.replicate 50 (1 : ℚ)) =
        trailingMean 50 (List.replicate 50 (1 : ℚ)) ∧
      signalOf (List.replicate 50 (1 : ℚ)) = "SELL" := by
  have heq : trailingMean 20 (List.replicate 50 (1 : ℚ)) =
      trailingMean 50 (List.replicate 50 (1 : ℚ)) := by
    simp [trailingMean, List.drop_replicate, List.sum_replicate]
    norm_num
  exact ⟨by decide, heq,
    (claim_C8_signal (List.replicate 50 (1 : ℚ)) (by decide)).2.1 heq⟩

/-- C2: the resolver consults TwelveData first and yfinance second; a
non-empty TwelveData frame is returned immediately, tagged "TwelveData",
and the yfinance outcome is never consulted; when TwelveData is skipped
(no API key), raises, returns `None`, or returns an empty frame, a
non-empty yfinance frame is returned tagged "yfinance" and the
`(None, None)` no-provider result is never produced
(src/app.py lines 120-161). -/
theorem claim_C2_resolver :
    (∀ (startD endD : Nat) (bars : List Bar) (yf₁ yf₂ : FetchOutcome),
        bars ≠ [] →
          fetch_data startD endD true (FetchOutcome.ok bars) yf₁ =
              some (sortBars bars, "TwelveData") ∧
            fetch_data startD endD true (FetchOutcome.ok bars) yf₁ =
              fetch_data startD endD true (FetchOutcome.ok bars) yf₂) ∧
      ∀ (startD endD : Nat) (tdAvailable : Bool) (tdOutcome : FetchOutcome)
        (ybars : List Bar),
        (tdAvailable = false ∨ tdOutcome = FetchOutcome.exn ∨
            tdOutcome = FetchOutcome.noDf ∨ tdOutcome = FetchOutcome.ok []) →
          ybars ≠ [] →
            fetch_data startD endD tdAvailable tdOutcome
                (FetchOutcome.ok ybars) = some (ybars, "yfinance") ∧
              fetch_data startD endD tdAvailable tdOutcome
                (FetchOutcome.ok ybars) ≠ Option.none := by
  constructor
  · intro startD endD bars yf₁ yf₂ hne
    cases bars with
    | nil => exact absurd rfl hne
    | cons b bs => exact ⟨by simp [fetch_data], by simp [fetch_data]⟩
  · intro startD endD tdAvailable tdOutcome ybars hfail hne
    cases ybars with
    | nil => exact absurd rfl hne
    | cons y ys =>
        rcases hfail with h | h | h | h
        · subst h; exact ⟨by simp [fetch_data], by simp [fetch_data]⟩
        all_goals subst h
        · cases tdAvailable <;>
            exact ⟨by simp [fetch_data], by simp [fetch_data]⟩
        · cases tdAvailable <;>
            exact ⟨by simp [fetch_data], by simp [fetch_data]⟩
        · cases tdAvailable <;>
            exact ⟨by simp [fetch_data], by simp [fetch_data]⟩

/-- Witness for C2: a concrete first-success run and a concrete
empty-primary fallback run. -/
theorem claim_C2_witness :
    (fetch_data 0 1 true (FetchOutcome.ok [⟨1, 5⟩]) FetchOutcome.exn =
          some (sortBars [⟨1, 5⟩], "TwelveData") ∧
        fetch_data 0 1 true (FetchOutcome.ok [⟨1, 5⟩]) FetchOutcome.exn =
          fetch_data 0 1 true (FetchOutcome.ok [⟨1, 5⟩]) FetchOutcome.noDf) ∧
      fetch_data 0 1 true (FetchOutcome.ok []) (FetchOutcome.ok [⟨2, 7⟩]) =
          some ([⟨2, 7⟩], "yfinance") ∧
        fetch_data 0 1 true (FetchOutcome.ok []) (FetchOutcome.ok [⟨2, 7⟩]) ≠
          Option.none :=
  ⟨claim_C2_resolver.1 0 1 [⟨1, 5⟩] FetchOutcome.exn FetchOutcome.noDf
      (by decide),
    claim_C2_resolver.2 0 1 true (FetchOutcome.ok []) [⟨2, 7⟩]
      (Or.inr (Or.inr (Or.inr rfl))) (by decide)⟩

/-- C10 counterexample: for the requested window `[100, 200]` the resolver
returns the TwelveData series unchanged even though its only bar is dated
300, outside the window: the claim that every returned bar's date lies in
the requested window is false. -/
theorem claim_C10_counterexample :
    fetch_data 100 200 true (FetchOutcome.ok [⟨300, 10⟩]) FetchOutcome.exn =
        some ([⟨300, 10⟩], "TwelveData") ∧
      ¬ (100 ≤ (Bar.mk 300 10).date ∧ (Bar.mk 300 10).date ≤ 200) := by
  exact ⟨rfl, by decide⟩

/-- C10 amended: the resolver applies no window filtering; the TwelveData
branch returns the provider's most recent bars (fixed `outputsize=500`,
src/app.py lines 126-131) sorted by date, regardless of the requested
`[startD, endD]` window, so every provider bar appears in the returned
series whatever its date; only the yfinance branch forwards the window to
its provider. -/
theorem claim_C10_no_window_filter (startD endD : Nat) (bars : List Bar)
    (yfOutcome : FetchOutcome) (h : bars ≠ []) :
    fetch_data startD endD true (FetchOutcome.ok bars) yfOutcome =
        some (sortBars bars, "TwelveData") ∧
      ∀ b ∈ bars, b ∈ sortBars bars := by
  constructor
  · cases bars with
    | nil => exact absurd rfl h
    | cons x xs => simp [fetch_data]
  · intro b hb
    exact ((List.perm_insertionSort _ bars).symm).subset hb

/-- Witness for C10 amended at a concrete input. -/
theorem claim_C10_witness :
    [Bar.mk 300 10] ≠ [] ∧
      fetch_data 100 200 true (FetchOutcome.ok [⟨300, 10⟩])
          FetchOutcome.exn = some (sortBars [⟨300, 10⟩], "TwelveData") ∧
      ∀ b ∈ [Bar.mk 300 10], b ∈ sortBars [⟨300, 10⟩] :=
  ⟨by decide,
    claim_C10_no_window_filter 100 200 [⟨300, 10⟩] FetchOutcome.exn (by decide)⟩

/-- C3 counterexample: two requests agreeing on symbol and venue but with
disjoint date windows produce the same cache key, and the second request
(window `[300, 400]`) is served the series stored for the first request's
window `[100, 200]` without the resolver running, so the claim that
distinct windows use distinct keys is false. -/
theorem claim_C3_counterexample :
    cacheKeyOf "RELIANCE" "NSE" 100 200 = cacheKeyOf "RELIANCE" "NSE" 300 400 ∧
      ((100 : Nat), (200 : Nat)) ≠ ((300 : Nat), (400 : Nat)) ∧
      (cachedFetch [] 0 "RELIANCE" "NSE" 100 200 false FetchOutcome.exn
            (FetchOutcome.ok [⟨150, 10⟩])).2.1 =
        [(("RELIANCE", "NSE"), some ([⟨150, 10⟩], "yfinance"), 0)] ∧
      (cachedFetch [(("RELIANCE", "NSE"), some ([⟨150, 10⟩], "yfinance"), 0)]
            10 "RELIANCE" "NSE" 300 400 false FetchOutcome.exn
            (FetchOutcome.ok [⟨350, 20⟩])).1 =
        some ([⟨150, 10⟩], "yfinance") ∧
      (cachedFetch [(("RELIANCE", "NSE"), some ([⟨150, 10⟩], "yfinance"), 0)]
            10 "RELIANCE" "NSE" 300 400 false FetchOutcome.exn
            (FetchOutcome.ok [⟨350, 20⟩])).2.2 = false :=
  ⟨rfl, by decide, rfl, rfl, rfl⟩

/-- C3 amended: the cache key is only `(symbol, exchange)` — the parameters
of the decorated `fetch_data` — while `start_date`/`end_date` are read from
the enclosing scope and are not part of the key; hence any two requests
agreeing on symbol and venue share one key, and whenever a fresh entry
exists for that key, a request with any date window is served that entry
without the resolver running. -/
theorem claim_C3_key_ignores_window :
    (∀ (symbol exchange : String) (d₁ e₁ d₂ e₂ : Nat),
        cacheKeyOf symbol exchange d₁ e₁ = cacheKeyOf symbol exchange d₂ e₂) ∧
      ∀ (st : CacheState) (now : Nat) (symbol exchange : String)
        (d₁ e₁ d₂ e₂ : Nat) (v : FetchResult) (tdAvailable : Bool)
        (tdOutcome yfOutcome : FetchOutcome),
        lookupFresh st (cacheKeyOf symbol exchange d₁ e₁) now = some v →
          cachedFetch st now symbol exchange d₂ e₂ tdAvailable tdOutcome
            yfOutcome = (v, st, false) := by
  constructor
  · intro symbol exchange d₁ e₁ d₂ e₂
    rfl
  · intro st now symbol exchange d₁ e₁ d₂ e₂ v tdA tdO yfO hl
    simp only [cachedFetch, cacheKeyOf] at hl ⊢
    rw [hl]

/-- Witness for C3 amended at a concrete cache state. -/
theorem claim_C3_witness :
    lookupFresh [(("A", "NSE"), Option.none, 0)] (cacheKeyOf "A" "NSE" 1 2) 5 =
        some Option.none ∧
      cachedFetch [(("A", "NSE"), Option.none, 0)] 5 "A" "NSE" 7 9 true
          (FetchOutcome.ok [⟨3, 4⟩]) FetchOutcome.exn =
        (Option.none, [(("A", "NSE"), Option.none, 0)], false) :=
  ⟨rfl,
    claim_C3_key_ignores_window.2 [(("A", "NSE"), Option.none, 0)] 5 "A" "NSE"
      1 2 7 9 Option.none true (FetchOutcome.ok [⟨3, 4⟩]) FetchOutcome.exn rfl⟩

/-- C4 counterexample: a failed resolution (both providers fail) returns
`(None, None)` and `st.cache_data` stores that failure; a later request for
the same key within the TTL is answered from the cache — the resolver does
not run — even though the fallback provider now has data, so the claim that
failures are never memoized is false. -/
theorem claim_C4_counterexample :
    (cachedFetch [] 0 "TCS" "NSE" 100 200 false FetchOutcome.exn
          FetchOutcome.exn).1 = Option.none ∧
      (cachedFetch [] 0 "TCS" "NSE" 100 200 false FetchOutcome.exn
            FetchOutcome.exn).2.1 =
        [(("TCS", "NSE"), Option.none, 0)] ∧
      (cachedFetch [(("TCS", "NSE"), Option.none, 0)] 10 "TCS" "NSE" 100 200
            false FetchOutcome.exn (FetchOutcome.ok [⟨150, 10⟩])).1 =
        Option.none ∧
      (cachedFetch [(("TCS", "NSE"), Option.none, 0)] 10 "TCS" "NSE" 100 200
            false FetchOutcome.exn (FetchOutcome.ok [⟨150, 10⟩])).2.2 =
        false :=
  ⟨rfl, rfl, rfl, rfl⟩

/-- C4 amended: failures are memoized — when a request misses the cache and
resolution returns `(None, None)`, that failure is stored under the key,
and every later request for the same symbol and venue within the TTL
returns the cached `(None, None)` without the resolver running. -/
theorem claim_C4_failures_memoized (st : CacheState) (now : Nat)
    (symbol exchange : String) (startD endD : Nat) (tdAvailable : Bool)
    (tdOutcome yfOutcome : FetchOutcome)
    (hmiss : lookupFresh st (cacheKeyOf symbol exchange startD endD) now =
      Option.none)
    (hfail : fetch_data startD endD tdAvailable tdOutcome yfOutcome =
      Option.none) :
    (cachedFetch st now symbol exchange startD endD tdAvailable tdOutcome
          yfOutcome).2.1 =
        (cacheKeyOf symbol exchange startD endD, Option.none, now) :: st ∧
      ∀ (now' d₂ e₂ : Nat) (tdA' : Bool) (tdO' yfO' : FetchOutcome),
        now' < now + ttlSeconds →
          (cachedFetch
                ((cacheKeyOf symbol exchange startD endD, Option.none, now) ::
                  st) now' symbol exchange d₂ e₂ tdA' tdO' yfO').1 =
              Option.none ∧
            (cachedFetch
                  ((cacheKeyOf symbol exchange startD endD, Option.none, now) ::
                    st) now' symbol exchange d₂ e₂ tdA' tdO' yfO').2.2 =
              false := by
  constructor
  · simp only [cachedFetch, hmiss, hfail]
  · intro now' d₂ e₂ tdA' tdO' yfO' hfresh
    have hhit : lookupFresh
        ((cacheKeyOf symbol exchange startD endD, Option.none, now) :: st)
          (cacheKeyOf symbol exchange d₂ e₂) now' = some Option.none := by
      simp [lookupFresh, cacheKeyOf, List.find?_cons_of_pos, hfresh]
    constructor
    · simp only [cachedFetch, hhit]
    · simp only [cachedFetch, hhit]

/-- Witness for C4 amended at a concrete failing run. -/
theorem claim_C4_witness :
    lookupFresh [] (cacheKeyOf "TCS" "NSE" 100 200) 0 = Option.none ∧
      fetch_data 100 200 false FetchOutcome.exn FetchOutcome.exn =
        Option.none ∧
      (cachedFetch [] 0 "TCS" "NSE" 100 200 false FetchOutcome.exn
            FetchOutcome.exn).2.1 =
        (cacheKeyOf "TCS" "NSE" 100 200, Option.none, 0) :: [] ∧
      (cachedFetch [(cacheKeyOf "TCS" "NSE" 100 200, Option.none, 0)] 10 "TCS"
            "NSE" 300 400 true (FetchOutcome.ok [⟨150, 10⟩])
            FetchOutcome.exn).1 = Option.none := by
  have h := claim_C4_failures_memoized [] 0 "TCS" "NSE" 100 200 false
    FetchOutcome.exn FetchOutcome.exn rfl rfl
  exact ⟨rfl, rfl, h.1,
    (h.2 10 300 400 true (FetchOutcome.ok [⟨150, 10⟩]) FetchOutcome.exn
        (by decide)).1⟩

/-- C5: the score is the count of the four threshold conditions that hold
and the category follows the fixed thresholds (StrongBuy at score ≥ 3,
Watchlist at 2, Avoid at ≤ 1), with all-false giving 0/Avoid and all-true
giving 4/StrongBuy. Modelled from the spec (section 4.5): the Scoring
Engine has no implementation under src/. -/
theorem claim_C5_scoring (ind : IndicatorSummary) :
    score ind =
        [decide (0 < ind.annualReturn),
          decide (ind.annualizedVolatility < 2 / 5),
          decide (1 < ind.sharpeValue),
          decide (ind.signal = Signal.buy)].count true ∧
      (3 ≤ score ind → (rate ind).category = Category.strongBuy) ∧
      (score ind = 2 → (rate ind).category = Category.watchlist) ∧
      (score ind ≤ 1 → (rate ind).category = Category.avoid) ∧
      ((¬ 0 < ind.annualReturn ∧ ¬ ind.annualizedVolatility < 2 / 5 ∧
          ¬ 1 < ind.sharpeValue ∧ ind.signal ≠ Signal.buy) →
        score ind = 0 ∧ (rate ind).category = Category.avoid) ∧
      ((0 < ind.annualReturn ∧ ind.annualizedVolatility < 2 / 5 ∧
          1 < ind.sharpeValue ∧ ind.signal = Signal.buy) →
        score ind = 4 ∧ (rate ind).category = Category.strongBuy) := by
  by_cases h₁ : 0 < ind.annualReturn <;>
    by_cases h₂ : ind.annualizedVolatility < 2 / 5 <;>
      by_cases h₃ : 1 < ind.sharpeValue <;>
        by_cases h₄ : ind.signal = Signal.buy <;>
          simp [score, bracket, rate, categoryOf, h₁, h₂, h₃, h₄]

/-- Witness for C5: a concrete all-true indicator summary scores 4 and is
rated StrongBuy. -/
theorem claim_C5_witness :
    ((0 : ℚ) < 1 ∧ (1 : ℚ) / 5 < 2 / 5 ∧ (1 : ℚ) < 2 ∧
        Signal.buy = Signal.buy) ∧
      score ⟨1, 1 / 5, 2, Signal.buy⟩ = 4 ∧
      (rate ⟨1, 1 / 5, 2, Signal.buy⟩).category = Category.strongBuy := by
  have hc : (0 : ℚ) < 1 ∧ (1 : ℚ) / 5 < 2 / 5 ∧ (1 : ℚ) < 2 ∧
      Signal.buy = Signal.buy := by
    refine ⟨by norm_num, by norm_num, by norm_num, rfl⟩
  exact ⟨hc, (claim_C5_scoring ⟨1, 1 / 5, 2, Signal.buy⟩).2.2.2.2.2 hc⟩

end StockDashboard
